import Mathlib

/-
Verification of the Mandala Generator application (src/app.py).

The development shallowly embeds the app's core operations:
  - `create_mandala_prompt` (the prompt builder),
  - `generate_mandala_image` (the image-provider client, with the two
    network round-trips abstracted as explicit function parameters),
  - `add_frame` (the frame compositor, with PIL `ImageDraw.rectangle`
    semantics: both corner coordinates are inclusive),
  - the Streamlit session-state glue (generate-button handler, frame
    selection, download-link filename).

Raster images are embedded as a width, a height and a pixel function;
colors as RGB triples of naturals.
-/

namespace Mandala

/-- An RGB color value; the app's hex color strings (e.g. "#8B4513")
denote the corresponding component triple. -/
structure Color where
  r : Nat
  g : Nat
  b : Nat
  deriving DecidableEq, Repr

/-- An in-memory raster image: dimensions plus a pixel map.  Pixels are
addressed as `pix x y` with `x` the column and `y` the row, as in PIL. -/
structure Image where
  width : Nat
  height : Nat
  pix : Nat → Nat → Color

/-- The closed set of frame styles of the app
("Classic Wood", "Modern Black", "Silver Metal"). -/
inductive FrameStyle where
  | classicWood
  | modernBlack
  | silverMetal
  deriving DecidableEq, Repr

/-- The `frames` dictionary of `add_frame` in src/app.py:
style ↦ (border color, border width in pixels).
"#8B4513" = (139,69,19), "#1a1a1a" = (26,26,26), "#C0C0C0" = (192,192,192). -/
def frames : FrameStyle → Color × Nat
  | .classicWood => (⟨0x8B, 0x45, 0x13⟩, 40)
  | .modernBlack => (⟨0x1a, 0x1a, 0x1a⟩, 30)
  | .silverMetal => (⟨0xC0, 0xC0, 0xC0⟩, 35)

/-- PIL `ImageDraw.Draw(img).rectangle((x0, y0, x1, y1), fill = c)`:
fills every pixel with `x0 ≤ x ≤ x1` and `y0 ≤ y ≤ y1`; both corners are
inclusive.  (In the app all rectangle coordinates are nonnegative as long
as the border width does not exceed the image dimensions; `Nat`
subtraction at the call sites clamps at 0, which coincides with PIL's
clipping of negative coordinates to the canvas.) -/
def drawRect (img : Image) (x0 y0 x1 y1 : Nat) (c : Color) : Image :=
  { img with
    pix := fun x y =>
      if x0 ≤ x ∧ x ≤ x1 ∧ y0 ≤ y ∧ y ≤ y1 then c else img.pix x y }

/-- `add_frame(image, frame_style)` of src/app.py: copy the image, look up
(color, width) in `frames`, then draw the top, bottom, left and right
border rectangles with PIL-inclusive coordinates. -/
def add_frame (image : Image) (frame_style : FrameStyle) : Image :=
  let frame := frames frame_style
  let w := frame.2
  let color := frame.1
  let imgW := image.width
  let imgH := image.height
  let top := drawRect image 0 0 (imgW - 1) w color
  let bottom := drawRect top 0 (imgH - w) (imgW - 1) (imgH - 1) color
  let left := drawRect bottom 0 0 w (imgH - 1) color
  drawRect left (imgW - w) 0 (imgW - 1) (imgH - 1) color

/-- The four painted border rectangles of `add_frame`, as a region
predicate: exactly the pixels covered by at least one of the four
`draw.rectangle` calls for the given style and image dimensions. -/
def inBorderRegion (image : Image) (style : FrameStyle) (x y : Nat) : Prop :=
  let w := (frames style).2
  (x ≤ image.width - 1 ∧ y ≤ w) ∨
  (image.height - w ≤ y ∧ x ≤ image.width - 1 ∧ y ≤ image.height - 1) ∨
  (x ≤ w ∧ y ≤ image.height - 1) ∨
  (image.width - w ≤ x ∧ x ≤ image.width - 1 ∧ y ≤ image.height - 1)

instance (image : Image) (style : FrameStyle) (x y : Nat) :
    Decidable (inBorderRegion image style x y) := by
  unfold inBorderRegion; infer_instance

/-- Plain white, the background color of the scenario images. -/
def white : Color := ⟨255, 255, 255⟩

/-- A 1024×1024 all-white image (the C2 scenario input). -/
def whiteImg : Image := ⟨1024, 1024, fun _ _ => white⟩

/-- The characters stripped by Python `str.strip()` (ASCII whitespace;
the template only ever has spaces and newlines at its ends). -/
def pySpace (c : Char) : Bool :=
  c == ' ' || c == '\t' || c == '\n' || c == '\r' || c == '\x0b' || c == '\x0c'

/-- Python `str.strip()` on the underlying character list: drop the
leading whitespace run, then the trailing one. -/
def stripList (p : Char → Bool) (l : List Char) : List Char :=
  ((l.dropWhile p).reverse.dropWhile p).reverse

/-- Python `str.strip()` lifted to `String`. -/
def pyStrip (s : String) : String :=
  ⟨stripList pySpace s.data⟩

/-- The list joined by `', '.join([...])` for the blue shades in
`create_mandala_prompt`. -/
def blue_shades : List String := ["dark blue", "medium blue", "light blue"]

/-- The list joined by `', '.join([...])` for the gray shades in
`create_mandala_prompt`. -/
def gray_shades : List String := ["dark gray", "medium gray", "light gray"]

/-- Template text of the f-string before the first `{inspiration}` slot
(including the leading newline and indentation of the triple-quoted
string). -/
def promptP0 : String :=
  "\n    Create a beautiful, detailed mandala art inspired by the word \x27"

/-- Template text between the two shade enumerations and around them:
the part after the first `{inspiration}` slot up to the blue-shade join. -/
def promptMidA : String :=
  "\x27. \n    The mandala should be centered, symmetrical, and intricate with a circular pattern.\n    Use EXACTLY 3 shades of blue ("

/-- Template text between the blue-shade join and the gray-shade join. -/
def promptMidB : String :=
  ") \n    and 3 shades of gray ("

/-- Template text between the gray-shade join and the second
`{inspiration}` slot. -/
def promptMidC : String :=
  ") only.\n    The design should be spiritual and meditative with intricate patterns.\n    Include subtle elements that relate to \x27"

/-- The full fixed text between the two `{inspiration}` slots, with the
two `', '.join` calls of the source resolved by `String.intercalate`. -/
def promptP1 : String :=
  promptMidA ++ String.intercalate ", " blue_shades ++ promptMidB
    ++ String.intercalate ", " gray_shades ++ promptMidC

/-- Template text after the second `{inspiration}` slot (including the
trailing newline and indentation of the triple-quoted string). -/
def promptP2 : String :=
  "\x27 in the mandala pattern.\n    Make it high-contrast against a white background so all details are clearly visible.\n    The mandala should be centered in the image with balanced composition.\n    "

/-- `create_mandala_prompt(inspiration)` of src/app.py: the f-string
template with `inspiration` substituted at its two slots, then
`.strip()`. -/
def create_mandala_prompt (inspiration : String) : String :=
  pyStrip (promptP0 ++ inspiration ++ promptP1 ++ inspiration ++ promptP2)

/-- `promptP0` with the leading whitespace stripped: the text the
returned prompt starts with. -/
def promptPre : String :=
  "Create a beautiful, detailed mandala art inspired by the word \x27"

/-- `promptP2` with the trailing whitespace stripped: the text the
returned prompt ends with. -/
def promptPost : String :=
  "\x27 in the mandala pattern.\n    Make it high-contrast against a white background so all details are clearly visible.\n    The mandala should be centered in the image with balanced composition."

/-- The two network round-trips of `generate_mandala_image` composed:
`openai.Image.create` yields an image URL (or fails), then
`requests.get` + `Image.open` yield a decoded image (or fail).  The two
external calls are passed in as function parameters. -/
def provider_pipeline (create : String → String → Except String String)
    (fetch : String → Except String Image)
    (api_key prompt : String) : Except String Image := do
  let image_url ← create api_key prompt
  fetch image_url

/-- `generate_mandala_image(api_key, prompt)` of src/app.py: run the two
round-trips inside `try`; on success return the decoded image and show
no message; on any exception show one `st.error` message
`"Error generating image: ..."` and return `None`.  The second component
collects the messages displayed. -/
def generate_mandala_image (api_key prompt : String)
    (create : String → String → Except String String)
    (fetch : String → Except String Image) : Option Image × List String :=
  match provider_pipeline create fetch api_key prompt with
  | .ok img => (some img, [])
  | .error e => (none, ["Error generating image: " ++ e])

/-- The Streamlit session state of src/app.py:
`st.session_state.mandala_image`, `st.session_state.framed_images` (a
dict keyed by the three frame names) and
`st.session_state.selected_frame`. -/
structure SessionState where
  mandala_image : Option Image
  framed_images : List (FrameStyle × Image)
  selected_frame : FrameStyle

/-- The session-state initialization of src/app.py:
no image, empty framed-images dict, selected frame "Classic Wood". -/
def initState : SessionState :=
  { mandala_image := none, framed_images := [], selected_frame := .classicWood }

/-- The fixed frame list `["Classic Wood", "Modern Black", "Silver Metal"]`
iterated by the dict comprehension in the generate handler. -/
def frame_options : List FrameStyle :=
  [.classicWood, .modernBlack, .silverMetal]

/-- The generate-button handler of src/app.py (the body of
`if generate_button and inspiration and api_key:`), as a state
transformer fired by a button press.  Python truthiness of the two
strings is non-emptiness.  On a successful generation the handler stores
the image, rebuilds the framed-images dict (one `add_frame` per style)
and shows a success message; on failure only the error message from
`generate_mandala_image` is shown and the state is left as it was.
The second component collects the messages displayed. -/
def generateClick (s : SessionState) (api_key inspiration : String)
    (create : String → String → Except String String)
    (fetch : String → Except String Image) : SessionState × List String :=
  if inspiration ≠ "" ∧ api_key ≠ "" then
    match generate_mandala_image api_key (create_mandala_prompt inspiration)
        create fetch with
    | (some image, msgs) =>
        ({ s with
            mandala_image := some image,
            framed_images := frame_options.map fun f => (f, add_frame image f) },
         msgs ++ ["Mandala generated successfully!"])
    | (none, msgs) => (s, msgs)
  else (s, [])

/-- The frame-selection button handler of src/app.py:
`st.session_state.selected_frame = frame` (followed by a rerun, which
touches no state). -/
def selectFrame (s : SessionState) (f : FrameStyle) : SessionState :=
  { s with selected_frame := f }

/-- The session states reachable in the app: the initial state, closed
under generate-button presses (with arbitrary inputs and arbitrary
provider behavior) and frame selections. -/
inductive Reachable : SessionState → Prop where
  | init : Reachable initState
  | generate (s : SessionState) (api_key inspiration : String)
      (create : String → String → Except String String)
      (fetch : String → Except String Image) :
      Reachable s → Reachable (generateClick s api_key inspiration create fetch).1
  | select (s : SessionState) (f : FrameStyle) :
      Reachable s → Reachable (selectFrame s f)

/-- A wall-clock timestamp, the relevant fields of `datetime.now()`. -/
structure Timestamp where
  year : Nat
  month : Nat
  day : Nat
  hour : Nat
  minute : Nat
  second : Nat

/-- Decimal digits of `n`, most significant first (the digits `str(n)`
would print). -/
def natDigits (n : Nat) : List Char :=
  if n < 10 then [Char.ofNat (48 + n)]
  else natDigits (n / 10) ++ [Char.ofNat (48 + n % 10)]
  termination_by n
  decreasing_by simp_wf; omega

/-- Left-pad a character list with `'0'` to length `k` (strftime's
zero-padding). -/
def zeroPad (k : Nat) (l : List Char) : List Char :=
  List.replicate (k - l.length) (Char.ofNat 48) ++ l

/-- A number formatted by a two-digit zero-padded strftime directive
(`%m`, `%d`, `%H`, `%M`, `%S`). -/
def fmt2 (n : Nat) : List Char := zeroPad 2 (natDigits n)

/-- A number formatted by the four-digit zero-padded `%Y` directive. -/
def fmt4 (n : Nat) : List Char := zeroPad 4 (natDigits n)

/-- `datetime.now().strftime('%Y%m%d_%H%M%S')` on a given timestamp. -/
def strftimeCompact (t : Timestamp) : String :=
  ⟨fmt4 t.year ++ fmt2 t.month ++ fmt2 t.day ++ [Char.ofNat 95]
    ++ fmt2 t.hour ++ fmt2 t.minute ++ fmt2 t.second⟩

/-- The download filename built at link-construction time in src/app.py:
`f"mandala_{inspiration}_{datetime.now().strftime('%Y%m%d_%H%M%S')}.png"`.
The timestamp parameter is the clock value at construction time; no
timestamp is stored in `SessionState` at generation time. -/
def download_filename (inspiration : String) (now : Timestamp) : String :=
  "mandala_" ++ inspiration ++ "_" ++ strftimeCompact now ++ ".png"

/-- A provider whose generation request always fails (e.g. invalid
credential or network failure), for concrete failure scenarios. -/
def errCreate : String → String → Except String String :=
  fun _ _ => .error "boom"

/-- An asset fetch that always fails, for concrete failure scenarios. -/
def errFetch : String → Except String Image :=
  fun _ => .error "boom"

/-- A session state after one successful generation, for concrete
scenarios. -/
def sampleState : SessionState :=
  { mandala_image := some whiteImg,
    framed_images := [(.classicWood, whiteImg)],
    selected_frame := .classicWood }

/-- A concrete clock value for download-filename scenarios. -/
def sampleTime : Timestamp := ⟨2025, 10, 12, 3, 4, 5⟩

/-- Python `strip` of a concatenation: when the left part keeps a
non-whitespace character and so does the right part (read from its end),
stripping only trims the outer parts and the middle is untouched. -/
theorem stripList_append (p : Char → Bool) (l0 m l2 : List Char)
    (h0 : (l0.dropWhile p).isEmpty = false)
    (h2 : (l2.reverse.dropWhile p).isEmpty = false) :
    stripList p (l0 ++ (m ++ l2))
      = l0.dropWhile p ++ (m ++ (l2.reverse.dropWhile p).reverse) := by
  unfold stripList
  rw [List.dropWhile_append, h0]
  simp only [Bool.false_eq_true, if_false]
  rw [List.reverse_append, List.reverse_append, List.append_assoc,
    List.dropWhile_append, h2]
  simp only [Bool.false_eq_true, if_false]
  simp [List.reverse_append, List.append_assoc]

/-- The ASCII characters emitted for decimal digits are digits. -/
theorem digitChar_isDigit : ∀ d : Nat, d < 10 → (Char.ofNat (48 + d)).isDigit = true := by
  decide

/-- Every character of a printed decimal number is a digit. -/
theorem natDigits_isDigit (n : Nat) : ∀ c ∈ natDigits n, c.isDigit = true := by
  induction n using Nat.strong_induction_on with
  | _ n ih =>
    rw [natDigits]
    split
    · next h =>
      intro c hc
      rw [List.mem_singleton] at hc
      subst hc
      exact digitChar_isDigit n h
    · next h =>
      intro c hc
      rw [List.mem_append] at hc
      rcases hc with hc | hc
      · exact ih (n / 10) (by omega) c hc
      · rw [List.mem_singleton] at hc
        subst hc
        exact digitChar_isDigit (n % 10) (Nat.mod_lt _ (by norm_num))

/-- A number below `10 ^ k` prints with at most `k` digits. -/
theorem natDigits_length_le : ∀ k : Nat, 1 ≤ k → ∀ n, n < 10 ^ k →
    (natDigits n).length ≤ k := by
  intro k
  induction k with
  | zero => omega
  | succ k ih =>
    intro _ n h
    rw [natDigits]
    split
    · simp
    · next hge =>
      have hk : 1 ≤ k := by
        rcases Nat.eq_zero_or_pos k with rfl | h1
        · norm_num at h; omega
        · exact h1
      have hdiv : n / 10 < 10 ^ k := by
        rw [Nat.div_lt_iff_lt_mul (by norm_num : (0:Nat) < 10)]
        have hp : (10:Nat) ^ (k+1) = 10 ^ k * 10 := pow_succ 10 k
        omega
      have hlen := ih hk (n / 10) hdiv
      simp only [List.length_append, List.length_singleton]
      omega

/-- A two-digit strftime field is two digit characters. -/
theorem fmt2_shape (n : Nat) (h : n < 100) :
    (fmt2 n).length = 2 ∧ ∀ c ∈ fmt2 n, c.isDigit = true := by
  have hlen : (natDigits n).length ≤ 2 :=
    natDigits_length_le 2 (by norm_num) n (by norm_num; omega)
  constructor
  · simp only [fmt2, zeroPad, List.length_append, List.length_replicate]
    omega
  · intro c hc
    simp only [fmt2, zeroPad, List.mem_append, List.mem_replicate] at hc
    rcases hc with ⟨-, rfl⟩ | hc
    · decide
    · exact natDigits_isDigit n c hc

/-- The four-digit `%Y` strftime field is four digit characters. -/
theorem fmt4_shape (n : Nat) (h : n < 10000) :
    (fmt4 n).length = 4 ∧ ∀ c ∈ fmt4 n, c.isDigit = true := by
  have hlen : (natDigits n).length ≤ 4 :=
    natDigits_length_le 4 (by norm_num) n (by norm_num; omega)
  constructor
  · simp only [fmt4, zeroPad, List.length_append, List.length_replicate]
    omega
  · intro c hc
    simp only [fmt4, zeroPad, List.mem_append, List.mem_replicate] at hc
    rcases hc with ⟨-, rfl⟩ | hc
    · decide
    · exact natDigits_isDigit n c hc

/-- A generate-button press either leaves the session state unchanged or
installs a freshly generated image together with its full framed-image
set. -/
theorem generateClick_fst (s : SessionState) (k w : String)
    (c : String → String → Except String String)
    (f : String → Except String Image) :
    (generateClick s k w c f).1 = s
    ∨ ∃ img, (generateClick s k w c f).1
        = { s with mandala_image := some img,
                   framed_images := frame_options.map fun fr => (fr, add_frame img fr) } := by
  unfold generateClick
  split
  · split
    · next image msgs heq => right; exact ⟨image, rfl⟩
    · left; rfl
  · left; rfl

/-- C1: for every input image and every one of the three frame styles,
`add_frame` returns an image of the same width and height, and every
pixel strictly inside the border box (outside the four painted border
rectangles) equals the corresponding input pixel. -/
theorem add_frame_preserves_dims_and_interior (image : Image) (style : FrameStyle)
    (x y : Nat) (h : ¬ inBorderRegion image style x y) :
    (add_frame image style).width = image.width
    ∧ (add_frame image style).height = image.height
    ∧ (add_frame image style).pix x y = image.pix x y := by
  refine ⟨rfl, rfl, ?_⟩
  unfold inBorderRegion at h
  simp only [add_frame, drawRect]
  split_ifs with h1 h2 h3 h4 <;> try rfl
  all_goals (exfalso; dsimp only at h; omega)

/-- Witness for C1: the pixel (500, 500) of a framed 1024×1024 white
image is outside the Modern Black border region and is unchanged. -/
theorem add_frame_preserves_dims_and_interior_witness :
    ¬ inBorderRegion whiteImg .modernBlack 500 500
    ∧ ((add_frame whiteImg .modernBlack).width = whiteImg.width
      ∧ (add_frame whiteImg .modernBlack).height = whiteImg.height
      ∧ (add_frame whiteImg .modernBlack).pix 500 500 = whiteImg.pix 500 500) :=
  ⟨by decide, add_frame_preserves_dims_and_interior whiteImg .modernBlack 500 500 (by decide)⟩

/-- C2 counterexample: on a 1024×1024 white image with the Modern Black
style, the claimed 964×964 interior (rows and columns 30‥993) is NOT
left unchanged: PIL rectangle coordinates are inclusive, so row 30 and
column 30 are painted.  The pixel (500, 30) lies in the claimed interior
but is near-black in the output. -/
theorem modernBlack_claimed_interior_cex :
    ¬ (∀ x y : Nat, 30 ≤ x → x ≤ 993 → 30 ≤ y → y ≤ 993 →
        (add_frame whiteImg .modernBlack).pix x y = white) := by
  intro h
  have h2 := h 500 30 (by norm_num) (by norm_num) (by norm_num) (by norm_num)
  exact absurd h2 (by decide)

/-- C2 (amended): applying Modern Black to a 1024×1024 white image
paints every pixel within 30 pixels of an edge near-black #1a1a1a (the
painted bands are in fact rows/columns 0‥30 and 994‥1023, i.e. 31 pixels
on top/left), and the interior 963×963 region (rows and columns 31‥993)
is unchanged, still white. -/
theorem modernBlack_1024_frame_amended :
    (∀ x y : Nat, x ≤ 1023 → y ≤ 1023 →
        (y ≤ 30 ∨ 994 ≤ y ∨ x ≤ 30 ∨ 994 ≤ x) →
        (add_frame whiteImg .modernBlack).pix x y = ⟨0x1a, 0x1a, 0x1a⟩)
    ∧ (∀ x y : Nat, 31 ≤ x → x ≤ 993 → 31 ≤ y → y ≤ 993 →
        (add_frame whiteImg .modernBlack).pix x y = white) := by
  constructor
  · intro x y hx hy hb
    simp only [add_frame, drawRect, whiteImg, frames]
    split_ifs with h1 h2 h3 h4 <;> try rfl
    exfalso; omega
  · intro x y hx1 hx2 hy1 hy2
    simp only [add_frame, drawRect, whiteImg, frames]
    split_ifs with h1 h2 h3 h4 <;> try rfl
    all_goals (exfalso; omega)

/-- Witness for the amended C2: a border pixel is near-black and an
interior pixel is white. -/
theorem modernBlack_1024_frame_amended_witness :
    (add_frame whiteImg .modernBlack).pix 0 0 = ⟨0x1a, 0x1a, 0x1a⟩
    ∧ (add_frame whiteImg .modernBlack).pix 500 500 = white :=
  ⟨modernBlack_1024_frame_amended.1 0 0 (by norm_num) (by norm_num)
      (Or.inl (by norm_num)),
   modernBlack_1024_frame_amended.2 500 500 (by norm_num) (by norm_num)
      (by norm_num) (by norm_num)⟩

set_option maxRecDepth 8192 in
/-- C3: for every inspiration word (empty included), the prompt is the
fixed template with the word substituted at exactly its two slots (the
theme slot and the "relate to" clause), and the fixed middle text lists
the joined enumerations of exactly 3 blue shades and exactly 3 gray
shades. -/
theorem create_mandala_prompt_shape (w : String) :
    create_mandala_prompt w = promptPre ++ w ++ promptP1 ++ w ++ promptPost
    ∧ promptP1 = promptMidA ++ String.intercalate ", " blue_shades ++ promptMidB
        ++ String.intercalate ", " gray_shades ++ promptMidC
    ∧ blue_shades.length = 3 ∧ gray_shades.length = 3 := by
  refine ⟨?_, rfl, rfl, rfl⟩
  have e0 : promptP0.data.dropWhile pySpace = promptPre.data := by decide
  have e2 : (promptP2.data.reverse.dropWhile pySpace).reverse = promptPost.data := by
    decide
  have hne0 : (promptP0.data.dropWhile pySpace).isEmpty = false := by decide
  have hne2 : (promptP2.data.reverse.dropWhile pySpace).isEmpty = false := by decide
  have key := stripList_append pySpace promptP0.data
    (w.data ++ (promptP1.data ++ w.data)) promptP2.data hne0 hne2
  rw [e0, e2] at key
  apply String.ext
  show stripList pySpace (promptP0 ++ w ++ promptP1 ++ w ++ promptP2).data
      = (promptPre ++ w ++ promptP1 ++ w ++ promptPost).data
  simp only [String.data_append, List.append_assoc] at key ⊢
  exact key

/-- C4: the style table holds exactly the configured (color, width)
pairs — Classic Wood #8B4513 at 40px, Modern Black #1a1a1a at 30px,
Silver Metal #C0C0C0 at 35px — and every pixel inside the painted border
region of any image equals the configured color exactly. -/
theorem frames_table_and_exact_border_color :
    frames .classicWood = (⟨0x8B, 0x45, 0x13⟩, 40)
    ∧ frames .modernBlack = (⟨0x1a, 0x1a, 0x1a⟩, 30)
    ∧ frames .silverMetal = (⟨0xC0, 0xC0, 0xC0⟩, 35)
    ∧ ∀ (image : Image) (style : FrameStyle) (x y : Nat),
        inBorderRegion image style x y →
        (add_frame image style).pix x y = (frames style).1 := by
  refine ⟨rfl, rfl, rfl, ?_⟩
  intro image style x y h
  unfold inBorderRegion at h
  simp only [add_frame, drawRect]
  split_ifs with h1 h2 h3 h4 <;> try rfl
  exfalso; dsimp only at h; omega

/-- Witness for C4: the corner pixel (0, 0) of a framed white image is
in the border region and receives the Classic Wood color. -/
theorem frames_table_and_exact_border_color_witness :
    inBorderRegion whiteImg .classicWood 0 0
    ∧ (add_frame whiteImg .classicWood).pix 0 0 = (frames .classicWood).1 :=
  ⟨by decide,
   frames_table_and_exact_border_color.2.2.2 whiteImg .classicWood 0 0 (by decide)⟩

/-- C5: when a generation attempt fails while a prior successful image
and framed-image set are stored, the stored image and every framed entry
are unchanged after the attempt, and the provider error is the one
message surfaced. -/
theorem failed_generation_preserves_state
    (s : SessionState) (prev : Image) (prevFrames : List (FrameStyle × Image))
    (api_key inspiration e : String)
    (create : String → String → Except String String)
    (fetch : String → Except String Image)
    (hprev : s.mandala_image = some prev)
    (hframes : s.framed_images = prevFrames)
    (hw : inspiration ≠ "") (hk : api_key ≠ "")
    (hfail : provider_pipeline create fetch api_key
        (create_mandala_prompt inspiration) = .error e) :
    (generateClick s api_key inspiration create fetch).1.mandala_image = some prev
    ∧ (generateClick s api_key inspiration create fetch).1.framed_images = prevFrames
    ∧ (generateClick s api_key inspiration create fetch).2
        = ["Error generating image: " ++ e] := by
  unfold generateClick generate_mandala_image
  rw [if_pos ⟨hw, hk⟩, hfail]
  exact ⟨hprev, hframes, rfl⟩

/-- Witness for C5: a failing provider call on a state holding a prior
image leaves the image and frame set intact and surfaces the error. -/
theorem failed_generation_preserves_state_witness :
    sampleState.mandala_image = some whiteImg
    ∧ ((generateClick sampleState "k" "love" errCreate errFetch).1.mandala_image
        = some whiteImg
      ∧ (generateClick sampleState "k" "love" errCreate errFetch).1.framed_images
        = [(.classicWood, whiteImg)]
      ∧ (generateClick sampleState "k" "love" errCreate errFetch).2
        = ["Error generating image: " ++ "boom"]) :=
  ⟨rfl,
   failed_generation_preserves_state sampleState whiteImg [(.classicWood, whiteImg)]
     "k" "love" "boom" errCreate errFetch rfl rfl (by decide) (by decide) rfl⟩

/-- C6: for every credential and prompt, the image-provider client
either returns a decoded image (both round-trips succeeded, no message),
or returns no image together with a single human-readable error message;
it is a total function and never propagates a failure. -/
theorem generate_mandala_image_total (api_key prompt : String)
    (create : String → String → Except String String)
    (fetch : String → Except String Image) :
    (∃ url img, create api_key prompt = .ok url ∧ fetch url = .ok img
        ∧ generate_mandala_image api_key prompt create fetch = (some img, []))
    ∨ (∃ e, generate_mandala_image api_key prompt create fetch
        = (none, ["Error generating image: " ++ e])) := by
  cases hc : create api_key prompt with
  | error e =>
      right
      refine ⟨e, ?_⟩
      simp [generate_mandala_image, provider_pipeline, hc, bind, Except.bind]
  | ok url =>
      cases hf : fetch url with
      | error e =>
          right
          refine ⟨e, ?_⟩
          simp [generate_mandala_image, provider_pipeline, hc, hf, bind, Except.bind]
      | ok img =>
          left
          refine ⟨url, img, rfl, hf, ?_⟩
          simp [generate_mandala_image, provider_pipeline, hc, hf, bind, Except.bind]

/-- C7: in every reachable session state, the framed-image set is either
empty (no successful generation yet) or holds exactly one entry per
frame style, in the fixed style order, each computed by `add_frame` from
the stored image. -/
theorem framed_images_invariant (s : SessionState) (h : Reachable s) :
    s.framed_images = []
    ∨ ∃ img, s.mandala_image = some img
        ∧ s.framed_images = frame_options.map fun f => (f, add_frame img f) := by
  induction h with
  | init => left; rfl
  | generate s k w c f hs ih =>
      rcases generateClick_fst s k w c f with he | ⟨img, he⟩
      · rw [he]; exact ih
      · rw [he]; right; exact ⟨img, rfl, rfl⟩
  | select s f hs ih => exact ih

/-- Witness for C7: the initial state is reachable and satisfies the
invariant (empty framed-image set). -/
theorem framed_images_invariant_witness :
    initState.framed_images = []
    ∨ ∃ img, initState.mandala_image = some img
        ∧ initState.framed_images = frame_options.map fun f => (f, add_frame img f) :=
  framed_images_invariant initState Reachable.init

/-- C8: the selected frame is initialized to Classic Wood; a frame
selection sets exactly the selected frame and leaves the stored image
and every framed entry identical; and a generate-button press (the only
other state mutator) never changes the selected frame. -/
theorem selected_frame_policy :
    initState.selected_frame = .classicWood
    ∧ (∀ (s : SessionState) (f : FrameStyle),
        (selectFrame s f).selected_frame = f
        ∧ (selectFrame s f).mandala_image = s.mandala_image
        ∧ (selectFrame s f).framed_images = s.framed_images)
    ∧ (∀ (s : SessionState) (k w : String)
        (c : String → String → Except String String)
        (f : String → Except String Image),
        ((generateClick s k w c f).1).selected_frame = s.selected_frame) := by
  refine ⟨rfl, fun s f => ⟨rfl, rfl, rfl⟩, ?_⟩
  intro s k w c f
  rcases generateClick_fst s k w c f with he | ⟨img, he⟩ <;> rw [he]

/-- C9: for every inspiration word, the download filename is
`mandala_<word>_<YYYYMMDD_HHMMSS>.png` where the timestamp part is built
from the clock value passed at link-construction time: 8 digit
characters, an underscore, then 6 digit characters.  No timestamp is
stored at generation time — the session state has no time field. -/
theorem download_filename_pattern (w : String) (t : Timestamp)
    (hy : t.year < 10000) (hmo : t.month < 100) (hd : t.day < 100)
    (hh : t.hour < 100) (hmi : t.minute < 100) (hs : t.second < 100) :
    download_filename w t = "mandala_" ++ w ++ "_" ++ strftimeCompact t ++ ".png"
    ∧ ∃ date time : List Char,
        (strftimeCompact t).data = date ++ Char.ofNat 95 :: time
        ∧ date.length = 8 ∧ time.length = 6
        ∧ (∀ c ∈ date, c.isDigit = true) ∧ (∀ c ∈ time, c.isDigit = true) := by
  refine ⟨rfl, fmt4 t.year ++ fmt2 t.month ++ fmt2 t.day,
    fmt2 t.hour ++ fmt2 t.minute ++ fmt2 t.second, ?_, ?_, ?_, ?_, ?_⟩
  · show fmt4 t.year ++ fmt2 t.month ++ fmt2 t.day ++ [Char.ofNat 95]
      ++ fmt2 t.hour ++ fmt2 t.minute ++ fmt2 t.second = _
    simp [List.append_assoc]
  · simp only [List.length_append, (fmt4_shape t.year hy).1, (fmt2_shape t.month hmo).1,
      (fmt2_shape t.day hd).1]
  · simp only [List.length_append, (fmt2_shape t.hour hh).1, (fmt2_shape t.minute hmi).1,
      (fmt2_shape t.second hs).1]
  · intro c hc
    simp only [List.mem_append] at hc
    rcases hc with (hc | hc) | hc
    · exact (fmt4_shape t.year hy).2 c hc
    · exact (fmt2_shape t.month hmo).2 c hc
    · exact (fmt2_shape t.day hd).2 c hc
  · intro c hc
    simp only [List.mem_append] at hc
    rcases hc with (hc | hc) | hc
    · exact (fmt2_shape t.hour hh).2 c hc
    · exact (fmt2_shape t.minute hmi).2 c hc
    · exact (fmt2_shape t.second hs).2 c hc

/-- Witness for C9: a concrete clock value satisfies the field bounds
and yields a filename of the stated pattern. -/
theorem download_filename_pattern_witness :
    (sampleTime.year < 10000 ∧ sampleTime.month < 100 ∧ sampleTime.day < 100
      ∧ sampleTime.hour < 100 ∧ sampleTime.minute < 100 ∧ sampleTime.second < 100)
    ∧ (download_filename "love" sampleTime
        = "mandala_" ++ "love" ++ "_" ++ strftimeCompact sampleTime ++ ".png"
      ∧ ∃ date time : List Char,
          (strftimeCompact sampleTime).data = date ++ Char.ofNat 95 :: time
          ∧ date.length = 8 ∧ time.length = 6
          ∧ (∀ c ∈ date, c.isDigit = true) ∧ (∀ c ∈ time, c.isDigit = true)) :=
  ⟨by decide,
   download_filename_pattern "love" sampleTime (by decide) (by decide) (by decide)
     (by decide) (by decide) (by decide)⟩

/-- C10: a generate-button press with an empty inspiration word or an
empty credential performs no generation: the handler returns the session
state unchanged and shows no message, whatever the provider functions
are. -/
theorem empty_inputs_no_generation
    (s : SessionState) (api_key inspiration : String)
    (create : String → String → Except String String)
    (fetch : String → Except String Image)
    (h : inspiration = "" ∨ api_key = "") :
    generateClick s api_key inspiration create fetch = (s, []) := by
  unfold generateClick
  rw [if_neg (by tauto)]

/-- Witness for C10: with an empty inspiration word the state is
returned untouched with no messages, even with a provider available. -/
theorem empty_inputs_no_generation_witness :
    ("" = "" ∨ "k" = "")
    ∧ generateClick initState "k" "" errCreate errFetch = (initState, []) :=
  ⟨Or.inl rfl, empty_inputs_no_generation initState "k" "" errCreate errFetch (Or.inl rfl)⟩

end Mandala
